import Mathlib

/-!
Shallow embedding of the housing-price-analysis repository
(`src/data/dagster_assets.py`, `src/models/price_predictor.py`,
`src/api/main.py`) for checking its specification.

Numeric dataframe cells are modelled as `Option ℚ` (`none` plays the role of
a missing value / NaN); pandas arithmetic propagates missing values, which the
`o*` helpers mirror.  External library calls whose numeric output no claim
depends on (the sklearn estimators, the random train/test split) are
parameters of the embedding, so every theorem quantifies over them.
-/

set_option autoImplicit false

namespace RealEstate

/-! ## Missing-value (NaN) arithmetic over `Option ℚ` -/

/-- Pandas-style addition: missing if either operand is missing. -/
def oadd (a b : Option ℚ) : Option ℚ :=
  match a, b with
  | some x, some y => some (x + y)
  | _, _ => none

/-- Pandas-style subtraction: missing if either operand is missing. -/
def osub (a b : Option ℚ) : Option ℚ :=
  match a, b with
  | some x, some y => some (x - y)
  | _, _ => none

/-- Pandas-style multiplication: missing if either operand is missing. -/
def omul (a b : Option ℚ) : Option ℚ :=
  match a, b with
  | some x, some y => some (x * y)
  | _, _ => none

/-- Pandas-style division: missing if either operand is missing. -/
def odiv (a b : Option ℚ) : Option ℚ :=
  match a, b with
  | some x, some y => some (x / y)
  | _, _ => none

/-! ## Sorting and order statistics (pandas `quantile`, `mean`, `median`) -/

/-- Insert a rational into an ascending-sorted list. -/
def insertSorted (x : ℚ) : List ℚ → List ℚ
  | [] => [x]
  | y :: ys => if x ≤ y then x :: y :: ys else y :: insertSorted x ys

/-- Ascending insertion sort, the sorted order pandas statistics use. -/
def sortAsc (xs : List ℚ) : List ℚ := xs.foldr insertSorted []

/-- Sum of a list of rationals. -/
def listSum (xs : List ℚ) : ℚ := xs.foldr (· + ·) 0

/-- Arithmetic mean of a nonempty list (pandas `Series.mean` over the
non-missing entries). Returns 0 on the empty list, a case the callers guard. -/
def listMean (xs : List ℚ) : ℚ := listSum xs / xs.length

/-- Median as pandas computes it: middle element of the sorted list, or the
average of the two middle elements when the length is even. -/
def listMedian (xs : List ℚ) : ℚ :=
  let s := sortAsc xs
  let n := s.length
  if n % 2 = 1 then s.getD (n / 2) 0
  else (s.getD (n / 2 - 1) 0 + s.getD (n / 2) 0) / 2

/-- Linear-interpolation quantile, pandas' default: at fractional position
`q * (n - 1)` of the ascending-sorted list. -/
def quantileLin (xs : List ℚ) (q : ℚ) : ℚ :=
  let s := sortAsc xs
  let n := s.length
  let h : ℚ := q * ((n : ℚ) - 1)
  let i : ℕ := (Rat.floor h).toNat
  let lo := s.getD i 0
  let hi := s.getD (i + 1) lo
  lo + (h - Rat.floor h) * (hi - lo)

/-- Python `int(·)` on a float: truncation toward zero. -/
def ratTrunc (q : ℚ) : ℤ := if q < 0 then -(Rat.floor (-q)) else Rat.floor q

/-! ## Property Merger (`processed_properties` in `dagster_assets.py`) -/

/-- One row of the Boulder County loader's output (`boulder_county_transactions`).
The loader parses `sale_price` to a non-missing integer; the remaining numeric
columns may carry missing values. -/
structure BoulderRow where
  parcel_nb : String
  city : Option String
  sale_price : ℚ
  bedrooms : Option ℚ
  full_baths : Option ℚ
  three_qtr_baths : Option ℚ
  half_baths : Option ℚ
  above_ground_sqft : Option ℚ
  finished_bsmt_sqft : Option ℚ
  unfinished_bsmt_sqft : Option ℚ
  garage_sqft : Option ℚ
  year_built : Option ℚ
  land_value : Option ℚ
  bldg_value : Option ℚ
  deriving Repr, DecidableEq

/-- One RentCast listing as returned by the external API (`rentcast_properties`).
Fields may be absent. -/
structure RentcastRecord where
  id : Option String
  formattedAddress : Option String
  city : Option String
  state : Option String
  zipCode : Option String
  bedrooms : Option ℚ
  bathrooms : Option ℚ
  squareFootage : Option ℚ
  yearBuilt : Option ℚ
  zestimate : Option ℚ
  lastSalePrice : Option ℚ
  lastSaleDate : Option String
  deriving Repr, DecidableEq

/-- A row of the merged property frame produced by `processed_properties`.
Columns present in only one source are missing (`none`) on the other
source's rows, exactly as `pd.concat` fills them. -/
structure MergedRow where
  id : Option String
  city : Option String
  zip_code : Option String
  sale_price : Option ℚ
  last_sale_price : Option ℚ
  bedrooms : Option ℚ
  bathrooms : Option ℚ
  square_footage : Option ℚ
  garage_sqft : Option ℚ
  year_built : Option ℚ
  land_value : Option ℚ
  bldg_value : Option ℚ
  zestimate : Option ℚ
  data_source : String
  deriving Repr, DecidableEq

/-- Lines 138-163: build a property record from a Boulder County transaction,
deriving `bathrooms = full + 0.75*three_qtr + 0.5*half` and
`square_footage = above_ground + finished_bsmt`, tagging provenance. -/
def boulderToMerged (b : BoulderRow) : MergedRow :=
  { id := some b.parcel_nb
    city := b.city
    zip_code := none
    sale_price := some b.sale_price
    last_sale_price := none
    bedrooms := b.bedrooms
    bathrooms := oadd b.full_baths (oadd (omul b.three_qtr_baths (some (3/4)))
      (omul b.half_baths (some (1/2))))
    square_footage := oadd b.above_ground_sqft b.finished_bsmt_sqft
    garage_sqft := b.garage_sqft
    year_built := b.year_built
    land_value := b.land_value
    bldg_value := b.bldg_value
    zestimate := none
    data_source := "boulder_county" }

/-- Lines 166-187: tag RentCast provenance and rename the external columns to
the canonical schema (`lastSalePrice ↦ last_sale_price`, etc.).  No external
column is renamed to `sale_price`, so that column is missing on these rows. -/
def rentcastToMerged (r : RentcastRecord) : MergedRow :=
  { id := r.id
    city := r.city
    zip_code := r.zipCode
    sale_price := none
    last_sale_price := r.lastSalePrice
    bedrooms := r.bedrooms
    bathrooms := r.bathrooms
    square_footage := r.squareFootage
    garage_sqft := none
    year_built := r.yearBuilt
    land_value := none
    bldg_value := none
    zestimate := r.zestimate
    data_source := "rentcast" }

/-- Line 190/192: concatenation of the two sources, loader rows first
(the RentCast branch is taken only when that input is nonempty). -/
def combinedRows (b : List BoulderRow) (rc : List RentcastRecord) : List MergedRow :=
  if rc.isEmpty then b.map boulderToMerged
  else b.map boulderToMerged ++ rc.map rentcastToMerged

/-- Line 195: `dropna(subset=['sale_price', 'bedrooms', 'bathrooms'])`. -/
def dropIncomplete (rows : List MergedRow) : List MergedRow :=
  rows.filter fun r => r.sale_price.isSome && r.bedrooms.isSome && r.bathrooms.isSome

/-- The sale prices present in a row set (all of them, after `dropIncomplete`). -/
def pricesOf (rows : List MergedRow) : List ℚ := rows.filterMap (·.sale_price)

/-- Line 201: `Q1 - 1.5*IQR` of the given price list. -/
def lowerFence (prices : List ℚ) : ℚ :=
  quantileLin prices (1/4) - 3/2 * (quantileLin prices (3/4) - quantileLin prices (1/4))

/-- Line 202: `Q3 + 1.5*IQR` of the given price list. -/
def upperFence (prices : List ℚ) : ℚ :=
  quantileLin prices (3/4) + 3/2 * (quantileLin prices (3/4) - quantileLin prices (1/4))

/-- Lines 204-207: keep a row iff its sale price is inside the fences
(a missing price compares false, as NaN comparisons do). -/
def insideFences (lo hi : ℚ) (r : MergedRow) : Bool :=
  match r.sale_price with
  | some p => lo ≤ p && p ≤ hi
  | none => false

/-- `processed_properties` (lines 128-219): merge the two sources, drop rows
missing sale price / bedrooms / bathrooms, then drop IQR price outliers, the
fences being computed from the current batch after the non-null drop. -/
def processedProperties (b : List BoulderRow) (rc : List RentcastRecord) :
    List MergedRow :=
  let nonNull := dropIncomplete (combinedRows b rc)
  let prices := pricesOf nonNull
  nonNull.filter (insideFences (lowerFence prices) (upperFence prices))

/-! ## Market Trend Aggregator (`market_trends` in `dagster_assets.py`) -/

/-- One trend record as built on lines 250-259. `avg_price` and
`median_price` carry Python's `int(·)` truncation of the group mean/median;
`price_per_sqft` is the ratio of sums; both counts are the group size. -/
structure TrendRecord where
  zip_code : String
  date : String
  data_source : String
  avg_price : ℤ
  median_price : ℤ
  price_per_sqft : ℚ
  inventory_count : ℕ
  sales_count : ℕ
  deriving Repr, DecidableEq

/-- One step of `Series.unique`: append a row's zip code if it is present
and not yet recorded. -/
def addZip (acc : List String) (r : MergedRow) : List String :=
  match r.zip_code with
  | none => acc
  | some z => if z ∈ acc then acc else acc ++ [z]

/-- The distinct non-missing zip codes of a row set in first-occurrence order
(`processed_properties['zip_code'].unique()` with the NaN entry skipped by the
loop's `pd.isna` guard). -/
def uniqueZips (rows : List MergedRow) : List String :=
  rows.foldl addZip []

/-- Line 245: the rows of one zip-code group (a missing zip compares unequal,
as NaN does). -/
def groupOf (rows : List MergedRow) (z : String) : List MergedRow :=
  rows.filter fun r => r.zip_code == some z

/-- An error raised inside a pipeline stage body. -/
inductive StageErr where
  | err
  deriving Repr, DecidableEq

/-- Lines 250-259: the trend record of one qualifying group.  Pandas `mean`
and `median` skip missing entries; when the group has no present sale price
they return NaN and Python's `int(NaN)` raises, modelled as `.error`. -/
def trendRecord (today : String) (g : List MergedRow) (z : String) :
    Except StageErr TrendRecord :=
  let prices := pricesOf g
  if prices.isEmpty then .error .err
  else .ok
    { zip_code := z
      date := today
      data_source := "combined"
      avg_price := ratTrunc (listMean prices)
      median_price := ratTrunc (listMedian prices)
      price_per_sqft := listSum prices / listSum (g.filterMap (·.square_footage))
      inventory_count := g.length
      sales_count := g.length }

/-- The zip codes whose group meets the 5-row minimum (the loop's
`if len(zip_data) < 5: continue` guard, line 247). -/
def qualifyingZips (rows : List MergedRow) : List String :=
  (uniqueZips rows).filter fun z => 5 ≤ (groupOf rows z).length

/-- The loop of lines 241-260 over the given zip codes: build each group's
record in order; an exception aborts the whole computation. -/
def collectTrends (today : String) (rows : List MergedRow) :
    List String → Except StageErr (List TrendRecord)
  | [] => .ok []
  | z :: zs =>
    match trendRecord today (groupOf rows z) z with
    | .error e => .error e
    | .ok t =>
      match collectTrends today rows zs with
      | .error e => .error e
      | .ok ts => .ok (t :: ts)

/-- The body of `market_trends` (lines 234-262): empty input short-circuits to
an empty result; otherwise one record per distinct zip code whose group has at
least 5 rows, groups below the threshold skipped. -/
def marketTrendsBody (today : String) (rows : List MergedRow) :
    Except StageErr (List TrendRecord) :=
  if rows.isEmpty then .ok []
  else collectTrends today rows (qualifyingZips rows)

/-- The record `market_trends` emits for the group of zip code `z`
(lines 250-259 with the group's statistics written out). -/
def expectedRecord (today : String) (rows : List MergedRow) (z : String) :
    TrendRecord :=
  { zip_code := z
    date := today
    data_source := "combined"
    avg_price := ratTrunc (listMean (pricesOf (groupOf rows z)))
    median_price := ratTrunc (listMedian (pricesOf (groupOf rows z)))
    price_per_sqft := listSum (pricesOf (groupOf rows z))
      / listSum ((groupOf rows z).filterMap (·.square_footage))
    inventory_count := (groupOf rows z).length
    sales_count := (groupOf rows z).length }

/-- Lines 274-276: `market_trends` catches any exception and returns an empty
frame instead of re-raising. -/
def marketTrendsStage (today : String) (rows : List MergedRow) :
    Except StageErr (List TrendRecord) :=
  match marketTrendsBody today rows with
  | .ok v => .ok v
  | .error _ => .ok []

/-! ## Exception handling of the pipeline stages (`dagster_assets.py`)

Each stage wraps its body in `try/except`; the handler either re-raises the
error or swallows it by returning an empty frame.  Each `...OnError` function
is the exact `except` clause of its stage, applied to the outcome of the
stage's body. -/

/-- Lines 61-63 (`boulder_county_transactions`): log and re-raise. -/
def boulderLoadOnError {α : Type} (body : Except StageErr α) : Except StageErr α :=
  match body with
  | .ok v => .ok v
  | .error e => .error e

/-- Lines 123-125 (`rentcast_properties`): log and return an empty frame. -/
def rentcastFetchOnError {α : Type} (empty : α) (body : Except StageErr α) :
    Except StageErr α :=
  match body with
  | .ok v => .ok v
  | .error _ => .ok empty

/-- Lines 221-223 (`processed_properties`): log and re-raise. -/
def processedOnError {α : Type} (body : Except StageErr α) : Except StageErr α :=
  match body with
  | .ok v => .ok v
  | .error e => .error e

/-- Lines 274-276 (`market_trends`): log and return an empty frame. -/
def marketTrendsOnError {α : Type} (empty : α) (body : Except StageErr α) :
    Except StageErr α :=
  match body with
  | .ok v => .ok v
  | .error _ => .ok empty

/-- Lines 330-332 (`ml_training_data`): log and return an empty frame. -/
def mlTrainingDataOnError {α : Type} (empty : α) (body : Except StageErr α) :
    Except StageErr α :=
  match body with
  | .ok v => .ok v
  | .error _ => .ok empty

/-- Lines 349-351 (`database_connection`): log and re-raise. -/
def dbConnectionOnError {α : Type} (body : Except StageErr α) : Except StageErr α :=
  match body with
  | .ok v => .ok v
  | .error e => .error e

/-- Lines 395-397 (`load_to_database`): log and re-raise. -/
def loadToDatabaseOnError {α : Type} (body : Except StageErr α) : Except StageErr α :=
  match body with
  | .ok v => .ok v
  | .error e => .error e

/-! ## Price Predictor (`price_predictor.py`)

The sklearn estimators and the seeded `train_test_split` are external
libraries: the split is a parameter `splitFn` and an estimator's numeric
output is a parameter `oracle`; a fitted estimator records the features (and
target) it was fitted on, and feature matrices handed to the scaler or an
estimator are tracked symbolically by `Features`, so which data each library
object was fitted on / applied to is part of the embedded state. -/

/-- The three estimator kinds selectable at construction time. -/
inductive ModelType where
  | random_forest
  | gradient_boosting
  | linear
  deriving Repr, DecidableEq

/-- One row of the model's feature matrix: the seven raw columns plus the five
engineered columns added by `prepare_features` (lines 51-73). -/
structure FeatVec where
  bedrooms : Option ℚ
  bathrooms : Option ℚ
  square_footage : Option ℚ
  year_built : Option ℚ
  land_value : Option ℚ
  bldg_value : Option ℚ
  garage_sqft : Option ℚ
  price_per_sqft : Option ℚ
  total_bathrooms : Option ℚ
  age : Option ℚ
  land_to_building_ratio : Option ℚ
  total_sqft : Option ℚ
  deriving Repr, DecidableEq

/-- The ordered feature-name list stored by `prepare_features` (line 76). -/
def featureNamesList : List String :=
  ["bedrooms", "bathrooms", "square_footage", "year_built", "land_value",
   "bldg_value", "garage_sqft", "price_per_sqft", "total_bathrooms", "age",
   "land_to_building_ratio", "total_sqft"]

/-- A feature matrix as handed to an estimator: either unscaled, or the
output of the standard scaler, tagged with the data the scaler was fit on. -/
inductive Features where
  | raw (x : List FeatVec)
  | scaled (fitData : List FeatVec) (x : List FeatVec)
  deriving Repr, DecidableEq

/-- A fitted sklearn estimator, recording its kind and fit data. -/
structure FittedModel where
  mtype : ModelType
  fitInput : Features
  fitTarget : List ℚ
  deriving Repr, DecidableEq

/-- The numeric behaviour of a fitted estimator (`model.predict`), an external
library function the embedding quantifies over. -/
def Oracle : Type := FittedModel → Features → List ℚ

/-- Training metrics (lines 147-156).  `rmse = sqrt mse` is irrational and
used by no claim, so only its square `mse` is carried. -/
structure Metrics where
  mae : ℚ
  mse : ℚ
  r2 : ℚ
  mape : ℚ
  training_samples : ℕ
  test_samples : ℕ
  feature_count : ℕ
  deriving Repr, DecidableEq

/-- The mutable state of a `HousingPricePredictor` instance.  `scaler` holds
the data the standard scaler was fitted on (`none` before fitting);
`training_metrics` is `none` while the dict is still empty. -/
structure PredictorState where
  model_type : ModelType
  model : Option FittedModel
  scaler : Option (List FeatVec)
  feature_names : Option (List String)
  training_metrics : Option Metrics
  deriving Repr, DecidableEq

/-- `HousingPricePredictor.__init__` (lines 26-38). -/
def initPredictor (t : ModelType) : PredictorState :=
  { model_type := t, model := none, scaler := none, feature_names := none,
    training_metrics := none }

/-- `self.training_metrics.get('r2', 0.7)` (line 239). -/
def r2OrDefault (p : PredictorState) : ℚ :=
  match p.training_metrics with
  | some m => m.r2
  | none => 7/10

/-- Median of a column of cells, pandas style: the median of the present
entries, missing when every entry is missing. -/
def colMedian (xs : List (Option ℚ)) : Option ℚ :=
  let present := xs.filterMap id
  if present.isEmpty then none else some (listMedian present)

/-- `fillna`: replace a missing cell by the column median (itself possibly
missing, when the whole column is). -/
def fillCell (m : Option ℚ) (v : Option ℚ) : Option ℚ :=
  match v with
  | some x => some x
  | none => m

/-- `X.fillna(X.median())` over the twelve feature columns of the given
batch (line 61 fills only the seven raw columns, but at that point the five
engineered columns do not exist yet, so filling all present columns is the
same operation at both call sites). -/
def fillFeatCols (rows : List FeatVec) : List FeatVec :=
  let m1 := colMedian (rows.map (·.bedrooms))
  let m2 := colMedian (rows.map (·.bathrooms))
  let m3 := colMedian (rows.map (·.square_footage))
  let m4 := colMedian (rows.map (·.year_built))
  let m5 := colMedian (rows.map (·.land_value))
  let m6 := colMedian (rows.map (·.bldg_value))
  let m7 := colMedian (rows.map (·.garage_sqft))
  let m8 := colMedian (rows.map (·.price_per_sqft))
  let m9 := colMedian (rows.map (·.total_bathrooms))
  let m10 := colMedian (rows.map (·.age))
  let m11 := colMedian (rows.map (·.land_to_building_ratio))
  let m12 := colMedian (rows.map (·.total_sqft))
  rows.map fun r =>
    { bedrooms := fillCell m1 r.bedrooms
      bathrooms := fillCell m2 r.bathrooms
      square_footage := fillCell m3 r.square_footage
      year_built := fillCell m4 r.year_built
      land_value := fillCell m5 r.land_value
      bldg_value := fillCell m6 r.bldg_value
      garage_sqft := fillCell m7 r.garage_sqft
      price_per_sqft := fillCell m8 r.price_per_sqft
      total_bathrooms := fillCell m9 r.total_bathrooms
      age := fillCell m10 r.age
      land_to_building_ratio := fillCell m11 r.land_to_building_ratio
      total_sqft := fillCell m12 r.total_sqft }

/-- The seven raw feature columns of a merged-property row, as a `FeatVec`
whose engineered columns are not yet present. -/
def rawFeat (r : MergedRow) : FeatVec :=
  { bedrooms := r.bedrooms, bathrooms := r.bathrooms,
    square_footage := r.square_footage, year_built := r.year_built,
    land_value := r.land_value, bldg_value := r.bldg_value,
    garage_sqft := r.garage_sqft,
    price_per_sqft := none, total_bathrooms := none, age := none,
    land_to_building_ratio := none, total_sqft := none }

/-- Lines 68-73: add the five engineered columns to a filled raw row, given
its target value `y` and the run's current year. -/
def addEngineered (currentYear : ℚ) (x : FeatVec) (y : ℚ) : FeatVec :=
  { x with
    price_per_sqft := odiv (some y) x.square_footage
    total_bathrooms := x.bathrooms
    age := osub (some currentYear) x.year_built
    land_to_building_ratio := odiv x.land_value (oadd x.bldg_value (some 1))
    total_sqft := oadd x.square_footage x.garage_sqft }

/-- The target mask of lines 63-66: pair each feature row with the
sale price and keep exactly the pairs whose price is present. -/
def keepTargetRows {α β : Type} (xs : List α) (ys : List (Option β)) :
    List (α × β) :=
  (xs.zip ys).filterMap fun c =>
    match c.2 with
    | some y => some (c.1, y)
    | none => none

/-- `prepare_features` (lines 40-78): select the raw columns, fill missing
cells with the batch's per-column medians, drop rows whose target
(sale price) is missing, then add the engineered columns. -/
def prepareFeatures (currentYear : ℚ) (data : List MergedRow) :
    List FeatVec × List ℚ :=
  let kept := keepTargetRows (fillFeatCols (data.map rawFeat))
    (data.map (·.sale_price))
  (kept.map fun c => addEngineered currentYear c.1 c.2, kept.map (·.2))

/-- The number of usable rows after feature preparation: rows whose sale
price is present (filling never removes a row). -/
def usableCount (data : List MergedRow) : ℕ :=
  (data.filter fun r => r.sale_price.isSome).length

/-- The external seeded `train_test_split(X, y, test_size=0.2,
random_state=42)`, a parameter of the embedding. -/
def SplitFn : Type :=
  List FeatVec → List ℚ → List FeatVec × List FeatVec × List ℚ × List ℚ

/-- Which data the scaler and the estimator saw during `train`. -/
structure TrainTrace where
  scalerFitInput : List FeatVec
  scalerApplied : List (List FeatVec)
  modelFitInput : Features
  modelFitTarget : List ℚ
  modelEvalInput : Features
  deriving Repr, DecidableEq

inductive TrainError where
  | insufficientData (samples : ℕ)
  deriving Repr, DecidableEq

/-- Evaluation metrics of lines 134-156 over the held-out targets and the
estimator's predictions. -/
def computeMetrics (yte ypred : List ℚ) (ntr nte : ℕ) : Metrics :=
  let errs := List.zipWith (fun a b => a - b) yte ypred
  let mae := listMean (errs.map fun e => |e|)
  let mse := listMean (errs.map fun e => e ^ 2)
  let ybar := listMean yte
  let ssTot := listSum (yte.map fun a => (a - ybar) ^ 2)
  let r2 := 1 - listSum (errs.map fun e => e ^ 2) / ssTot
  let mape := listMean (List.zipWith (fun a b => |(a - b) / a|) yte ypred) * 100
  { mae := mae, mse := mse, r2 := r2, mape := mape,
    training_samples := ntr, test_samples := nte,
    feature_count := featureNamesList.length }

/-- `HousingPricePredictor.train` (lines 80-164): prepare features, fail with
an insufficient-data error below 50 usable rows, split 80/20, fit the scaler
on the train subset and apply it to both subsets, fit the selected estimator
— on scaled features for the linear kind, unscaled for the tree kinds — and
evaluate it on the matching version of the test subset. -/
def trainModel (currentYear : ℚ) (splitFn : SplitFn) (oracle : Oracle)
    (p : PredictorState) (data : List MergedRow) :
    Except TrainError (PredictorState × TrainTrace) :=
  let pf := prepareFeatures currentYear data
  let x := pf.1
  let y := pf.2
  if x.length < 50 then .error (.insufficientData x.length)
  else
    let s := splitFn x y
    let xtr := s.1
    let xte := s.2.1
    let ytr := s.2.2.1
    let xtrScaled := Features.scaled xtr xtr
    let xteScaled := Features.scaled xtr xte
    let fitted : FittedModel :=
      { mtype := p.model_type
        fitInput := if p.model_type = ModelType.linear then xtrScaled
          else Features.raw xtr
        fitTarget := ytr }
    let evalInput := if p.model_type = ModelType.linear then xteScaled
      else Features.raw xte
    let ypred := oracle fitted evalInput
    .ok ({ p with
            model := some fitted
            scaler := some xtr
            feature_names := some featureNamesList
            training_metrics := some (computeMetrics s.2.2.2 ypred xtr.length xte.length) },
         { scalerFitInput := xtr
           scalerApplied := [xtr, xte]
           modelFitInput := fitted.fitInput
           modelFitTarget := ytr
           modelEvalInput := evalInput })

/-- The train/test partition a training run works with: the split function
applied to the prepared features and targets. -/
def trainSplit (currentYear : ℚ) (splitFn : SplitFn) (data : List MergedRow) :
    List FeatVec × List FeatVec × List ℚ × List ℚ :=
  splitFn (prepareFeatures currentYear data).1 (prepareFeatures currentYear data).2

/-- Whether a training outcome produced a state with a fitted model. -/
def trainedModelSome :
    Except TrainError (PredictorState × TrainTrace) → Bool
  | .ok r => r.1.model.isSome
  | .error _ => false

inductive PredictError where
  | modelNotTrained
  deriving Repr, DecidableEq

/-- Which data the scaler and the estimator saw during `predict`.  Line 185
computes the scaling transform unconditionally; `scalerTransformInput` records
the matrix it was applied to. -/
structure PredictTrace where
  scalerTransformInput : List FeatVec
  modelPredictInput : Features
  deriving Repr, DecidableEq

/-- `HousingPricePredictor.predict` (lines 166-197): error when no model is
fitted; otherwise select the trained feature columns, fill missing cells with
the current input batch's medians, compute the scaling transform, and predict
— from the scaled matrix for the linear kind, the unscaled one otherwise. -/
def predictBatch (oracle : Oracle) (p : PredictorState) (x : List FeatVec) :
    Except PredictError (List ℚ × PredictTrace) :=
  match p.model with
  | none => .error .modelNotTrained
  | some m =>
    let xf := fillFeatCols x
    let xScaled := Features.scaled (p.scaler.getD []) xf
    let input := if p.model_type = ModelType.linear then xScaled
      else Features.raw xf
    .ok (oracle m input,
         { scalerTransformInput := xf, modelPredictInput := input })

/-- The dictionary returned by `predict_single_property` (lines 241-246). -/
structure SinglePrediction where
  predicted_price : ℤ
  confidence : ℚ
  features_used : List String
  mtype : ModelType
  deriving Repr, DecidableEq

/-- `HousingPricePredictor.predict_single_property` (lines 199-250): build the
one-row feature frame (absent optional values default to zero, price-per-area
is pinned to zero), delegate to `predict`, truncate the prediction to an
integer and clamp the stored coefficient of determination into [0.5, 0.95]. -/
def predictSingleProperty (oracle : Oracle) (currentYear : ℚ)
    (p : PredictorState) (bedrooms : ℤ) (bathrooms : ℚ)
    (square_footage : ℤ) (year_built : ℤ)
    (land_value bldg_value garage_sqft : Option ℤ) :
    Except PredictError SinglePrediction :=
  let lv : ℚ := (land_value.getD 0 : ℤ)
  let bv : ℚ := (bldg_value.getD 0 : ℤ)
  let gs : ℚ := (garage_sqft.getD 0 : ℤ)
  let fv : FeatVec :=
    { bedrooms := some (bedrooms : ℚ)
      bathrooms := some bathrooms
      square_footage := some (square_footage : ℚ)
      year_built := some (year_built : ℚ)
      land_value := some lv
      bldg_value := some bv
      garage_sqft := some gs
      price_per_sqft := some 0
      total_bathrooms := some bathrooms
      age := some (currentYear - (year_built : ℚ))
      land_to_building_ratio := some (lv / (bv + 1))
      total_sqft := some ((square_footage : ℚ) + gs) }
  match predictBatch oracle p [fv] with
  | .error e => .error e
  | .ok r =>
    .ok { predicted_price := ratTrunc (r.1.getD 0 0)
          confidence := max (1/2) (min (19/20) (r2OrDefault p))
          features_used := p.feature_names.getD []
          mtype := p.model_type }

/-! ## Query API (`api/main.py`) -/

/-- Python truthiness of an optional integer: `None` and `0` are falsy. -/
def truthyInt (o : Option ℤ) : Bool :=
  match o with
  | some v => v != 0
  | none => false

/-- Python truthiness of an optional rational: `None` and `0.0` are falsy. -/
def truthyRat (o : Option ℚ) : Bool :=
  match o with
  | some v => v != 0
  | none => false

/-- Python truthiness of an optional list: `None` and `[]` are falsy. -/
def truthyList (o : Option (List String)) : Bool :=
  match o with
  | some l => !l.isEmpty
  | none => false

/-- The per-row deviation computation shared by `search_properties`
(lines 247-253) and `get_property_details` (lines 452-458):
`if row.sale_price and row.fair_price:` — both values must be truthy
(present and nonzero) for the difference and its percentage to be computed;
otherwise both stay null. -/
def priceDeviation (sale_price fair_price : Option ℤ) : Option ℤ × Option ℚ :=
  if truthyInt sale_price && truthyInt fair_price then
    let d := sale_price.getD 0 - fair_price.getD 0
    (some d, some ((d : ℚ) / ((fair_price.getD 0 : ℤ) : ℚ) * 100))
  else (none, none)

/-- The body of a `POST /properties/search` request (lines 46-57). -/
structure SearchRequest where
  min_price : Option ℤ
  max_price : Option ℤ
  min_bedrooms : Option ℤ
  max_bedrooms : Option ℤ
  min_bathrooms : Option ℚ
  max_bathrooms : Option ℚ
  min_sqft : Option ℤ
  max_sqft : Option ℤ
  cities : Option (List String)
  zip_codes : Option (List String)
  limit : ℕ
  deriving Repr, DecidableEq

/-- A row of the joined `properties`/`fair_prices` relation the search query
reads; nullable columns are `Option`. -/
structure DBProperty where
  id : String
  address : Option String
  city : Option String
  zip_code : Option String
  bedrooms : Option ℤ
  bathrooms : Option ℚ
  square_footage : Option ℤ
  year_built : Option ℤ
  sale_price : Option ℤ
  zestimate : Option ℤ
  fair_price : Option ℤ
  deriving Repr, DecidableEq

/-- SQL `x >= v` over a nullable integer column: a null operand yields
unknown, which `WHERE` treats as false. -/
def sqlGeInt (x : Option ℤ) (v : ℤ) : Bool :=
  match x with
  | some a => decide (v ≤ a)
  | none => false

/-- SQL `x <= v` over a nullable integer column. -/
def sqlLeInt (x : Option ℤ) (v : ℤ) : Bool :=
  match x with
  | some a => decide (a ≤ v)
  | none => false

/-- SQL `x >= v` over a nullable numeric column. -/
def sqlGeRat (x : Option ℚ) (v : ℚ) : Bool :=
  match x with
  | some a => decide (v ≤ a)
  | none => false

/-- SQL `x <= v` over a nullable numeric column. -/
def sqlLeRat (x : Option ℚ) (v : ℚ) : Bool :=
  match x with
  | some a => decide (a ≤ v)
  | none => false

/-- SQL `x IN (list)` over a nullable text column. -/
def sqlInList (x : Option String) (l : List String) : Bool :=
  match x with
  | some s => decide (s ∈ l)
  | none => false

/-- The `WHERE` clause built by `search_properties` (lines 189-234): each
filter clause is appended only when the request field is truthy (so a
supplied 0 adds no clause), and the appended clauses are conjoined. -/
def rowMatches (req : SearchRequest) (p : DBProperty) : Bool :=
  (!truthyInt req.min_price ||
    (sqlGeInt p.sale_price (req.min_price.getD 0) ||
     sqlGeInt p.zestimate (req.min_price.getD 0))) &&
  (!truthyInt req.max_price ||
    (sqlLeInt p.sale_price (req.max_price.getD 0) ||
     sqlLeInt p.zestimate (req.max_price.getD 0))) &&
  (!truthyInt req.min_bedrooms || sqlGeInt p.bedrooms (req.min_bedrooms.getD 0)) &&
  (!truthyInt req.max_bedrooms || sqlLeInt p.bedrooms (req.max_bedrooms.getD 0)) &&
  (!truthyRat req.min_bathrooms || sqlGeRat p.bathrooms (req.min_bathrooms.getD 0)) &&
  (!truthyRat req.max_bathrooms || sqlLeRat p.bathrooms (req.max_bathrooms.getD 0)) &&
  (!truthyInt req.min_sqft || sqlGeInt p.square_footage (req.min_sqft.getD 0)) &&
  (!truthyInt req.max_sqft || sqlLeInt p.square_footage (req.max_sqft.getD 0)) &&
  (!truthyList req.cities || sqlInList p.city (req.cities.getD [])) &&
  (!truthyList req.zip_codes || sqlInList p.zip_code (req.zip_codes.getD []))

/-- `ORDER BY sale_price DESC NULLS LAST` on one key: does `x` sort no later
than `y`? -/
def descNullsLastLE (x y : Option ℤ) : Bool :=
  match x, y with
  | some a, some b => decide (b ≤ a)
  | some _, none => true
  | none, some _ => false
  | none, none => true

/-- Line 236: `ORDER BY p.sale_price DESC NULLS LAST, p.zestimate DESC NULLS
LAST` as a row comparison. -/
def rowOrderLE (a b : DBProperty) : Bool :=
  if a.sale_price = b.sale_price then descNullsLastLE a.zestimate b.zestimate
  else descNullsLastLE a.sale_price b.sale_price

/-- Insertion into a list sorted by `rowOrderLE`. -/
def insertRow (x : DBProperty) : List DBProperty → List DBProperty
  | [] => [x]
  | y :: ys => if rowOrderLE x y then x :: y :: ys else y :: insertRow x ys

/-- Sort rows by the search ordering. -/
def sortRows (rows : List DBProperty) : List DBProperty :=
  rows.foldr insertRow []

/-- The result set of `search_properties` (lines 160-273) over a table of
rows: filter by the built `WHERE` clause, order, and apply `LIMIT`. -/
def searchProperties (table : List DBProperty) (req : SearchRequest) :
    List DBProperty :=
  (sortRows (table.filter (rowMatches req))).take req.limit

/-! ## Concrete sample data, used to instantiate the theorems -/

/-- A well-populated Boulder County transaction row. -/
def sampleBoulder : BoulderRow :=
  { parcel_nb := "p1", city := some "Boulder", sale_price := 100,
    bedrooms := some 3, full_baths := some 2, three_qtr_baths := some 0,
    half_baths := some 1, above_ground_sqft := some 1000,
    finished_bsmt_sqft := some 500, unfinished_bsmt_sqft := none,
    garage_sqft := some 200, year_built := some 1990,
    land_value := some 100, bldg_value := some 200 }

/-- The same row with an extreme sale price, an IQR outlier in
`sampleBatch`. -/
def sampleOutlier : BoulderRow :=
  { sampleBoulder with parcel_nb := "p5", sale_price := 2000 }

/-- A batch whose quartiles are both 100, so the outlier is fenced out. -/
def sampleBatch : List BoulderRow :=
  [sampleBoulder, sampleBoulder, sampleBoulder, sampleBoulder, sampleOutlier]

/-- A RentCast listing with a last-sale price. -/
def sampleRentcast : RentcastRecord :=
  { id := some "r1", formattedAddress := some "1 Main St",
    city := some "Boulder", state := some "CO", zipCode := some "80301",
    bedrooms := some 3, bathrooms := some 2, squareFootage := some 1200,
    yearBuilt := some 1985, zestimate := some 900,
    lastSalePrice := some 800, lastSaleDate := some "2020-01-01" }

/-- A merged row carrying the given zip code. -/
def trendRow (z : String) : MergedRow :=
  { id := some "x", city := some "Boulder", zip_code := some z,
    sale_price := some 100, last_sale_price := none, bedrooms := some 3,
    bathrooms := some 2, square_footage := some 1000, garage_sqft := some 200,
    year_built := some 1990, land_value := some 100, bldg_value := some 200,
    zestimate := none, data_source := "boulder_county" }

/-- Five rows in zip 80301 (a qualifying group) and two in 80302 (too few). -/
def trendRowsSample : List MergedRow :=
  List.replicate 5 (trendRow "80301") ++ List.replicate 2 (trendRow "80302")

/-- Fifty fully-populated training rows. -/
def trainDataSample : List MergedRow :=
  List.replicate 50 (boulderToMerged sampleBoulder)

/-- Ten training rows, below the 50-row minimum. -/
def trainDataSmall : List MergedRow :=
  List.replicate 10 (boulderToMerged sampleBoulder)

/-- A concrete stand-in for the seeded 80/20 split. -/
def sampleSplit : SplitFn :=
  fun x y => (x.take 40, x.drop 40, y.take 40, y.drop 40)

/-- A concrete estimator behaviour: predict 0 for every row. -/
def sampleOracle : Oracle :=
  fun _ f =>
    match f with
    | .raw x => x.map fun _ => 0
    | .scaled _ x => x.map fun _ => 0

/-- A fitted-model value for building trained sample states. -/
def sampleFitted : FittedModel :=
  { mtype := ModelType.random_forest, fitInput := Features.raw [],
    fitTarget := [] }

/-- Stored metrics with a negative coefficient of determination. -/
def sampleMetrics : Metrics :=
  { mae := 0, mse := 0, r2 := -2, mape := 0, training_samples := 40,
    test_samples := 10, feature_count := 12 }

/-- A trained predictor state whose stored r2 is negative. -/
def samplePredictor : PredictorState :=
  { model_type := ModelType.random_forest, model := some sampleFitted,
    scaler := some [], feature_names := some featureNamesList,
    training_metrics := some sampleMetrics }

/-! ## Theorems -/

/-- C8: invoking batch or single-property prediction on a freshly constructed
predictor — one that has neither been trained nor loaded an artifact — fails
with the model-not-trained error instead of returning a prediction. -/
theorem c8_predict_before_training_errors (t : ModelType) (oracle : Oracle)
    (currentYear : ℚ) (x : List FeatVec) (bedrooms : ℤ) (bathrooms : ℚ)
    (square_footage year_built : ℤ) (land_value bldg_value garage_sqft : Option ℤ) :
    predictBatch oracle (initPredictor t) x = .error .modelNotTrained ∧
    predictSingleProperty oracle currentYear (initPredictor t) bedrooms
        bathrooms square_footage year_built land_value bldg_value garage_sqft
      = .error .modelNotTrained :=
  ⟨rfl, rfl⟩

/-- C5: for a trained state, the confidence returned by single-property
prediction is exactly the stored coefficient of determination clamped into
[0.5, 0.95], whatever that stored score is (below 0.5, above 0.95, or
negative), and the clamp always lies in [0.5, 0.95]. -/
theorem c5_confidence_is_clamped_r2 (oracle : Oracle) (currentYear : ℚ)
    (p : PredictorState) (m : Metrics) (fm : FittedModel)
    (hm : p.training_metrics = some m) (hfm : p.model = some fm)
    (bedrooms : ℤ) (bathrooms : ℚ) (square_footage year_built : ℤ)
    (land_value bldg_value garage_sqft : Option ℤ) :
    (predictSingleProperty oracle currentYear p bedrooms bathrooms
        square_footage year_built land_value bldg_value garage_sqft).map
        (fun r => r.confidence)
      = .ok (max (1/2) (min (19/20) m.r2)) ∧
    (1/2 : ℚ) ≤ max (1/2) (min (19/20) m.r2) ∧
    max (1/2) (min (19/20) m.r2) ≤ 19/20 := by
  refine ⟨?_, le_max_left _ _, max_le (by norm_num) (min_le_left _ _)⟩
  simp [predictSingleProperty, predictBatch, hfm, r2OrDefault, hm, Except.map]

/-- Witness for C5 at a concrete trained state whose stored r2 is -2. -/
theorem c5_confidence_is_clamped_r2_witness :
    samplePredictor.training_metrics = some sampleMetrics ∧
    samplePredictor.model = some sampleFitted ∧
    (predictSingleProperty sampleOracle 2025 samplePredictor 3 (5/2) 1500 1990
        none none none).map (fun r => r.confidence)
      = .ok (max (1/2) (min (19/20) sampleMetrics.r2)) ∧
    max (1/2) (min (19/20) sampleMetrics.r2) = 1/2 := by
  refine ⟨rfl, rfl,
    (c5_confidence_is_clamped_r2 sampleOracle 2025 samplePredictor
      sampleMetrics sampleFitted rfl rfl 3 (5/2) 1500 1990 none none none).1,
    ?_⟩
  with_unfolding_all decide

/-- C6 counterexample: the market-trends and ML-training-data stages do NOT
re-raise a failure inside their body — each catches it and returns an empty
result, contradicting the claim that only the fetcher's fallbacks swallow
errors. -/
theorem c6_counterexample_trends_swallow :
    marketTrendsOnError ([] : List TrendRecord) (Except.error StageErr.err)
        = Except.ok [] ∧
    mlTrainingDataOnError ([] : List MergedRow) (Except.error StageErr.err)
        = Except.ok [] ∧
    marketTrendsOnError ([] : List TrendRecord) (Except.error StageErr.err)
        ≠ Except.error StageErr.err ∧
    mlTrainingDataOnError ([] : List MergedRow) (Except.error StageErr.err)
        ≠ Except.error StageErr.err :=
  ⟨rfl, rfl, fun h => Except.noConfusion h, fun h => Except.noConfusion h⟩

/-- C6 amended: the loader, merger, database-connection and load stages
re-raise any failure of their body; the listings fetcher, the trend
aggregator and the ML-training-data stage catch any failure and return an
empty result instead. -/
theorem c6_amended_stage_error_policy (e : StageErr) :
    @boulderLoadOnError (List BoulderRow) (Except.error e) = Except.error e ∧
    @processedOnError (List MergedRow) (Except.error e) = Except.error e ∧
    @dbConnectionOnError Unit (Except.error e) = Except.error e ∧
    @loadToDatabaseOnError Unit (Except.error e) = Except.error e ∧
    rentcastFetchOnError ([] : List RentcastRecord) (Except.error e)
        = Except.ok [] ∧
    marketTrendsOnError ([] : List TrendRecord) (Except.error e)
        = Except.ok [] ∧
    mlTrainingDataOnError ([] : List MergedRow) (Except.error e)
        = Except.ok [] :=
  ⟨rfl, rfl, rfl, rfl, rfl, rfl, rfl⟩

/-- C7 counterexample: a present-but-zero sale price together with a present
fair price yields null deviations, although both values are non-null — the
guard tests Python truthiness, not presence. -/
theorem c7_counterexample_zero_price :
    (some (0 : ℤ)).isSome = true ∧ (some (100 : ℤ)).isSome = true ∧
    priceDeviation (some 0) (some 100) = (none, none) :=
  ⟨rfl, rfl, rfl⟩

/-- C7 amended: the deviation and its percentage are computed exactly when
both the sale price and the fair price are truthy (present AND nonzero), and
are null otherwise. -/
theorem c7_deviation_requires_truthy_values (s f : Option ℤ) :
    (truthyInt s = true → truthyInt f = true →
      priceDeviation s f
        = (some (s.getD 0 - f.getD 0),
           some (((s.getD 0 - f.getD 0 : ℤ) : ℚ)
             / ((f.getD 0 : ℤ) : ℚ) * 100))) ∧
    (¬(truthyInt s = true ∧ truthyInt f = true) →
      priceDeviation s f = (none, none)) := by
  constructor
  · intro hs hf
    simp [priceDeviation, hs, hf]
  · intro h
    have hb : (truthyInt s && truthyInt f) = false := by
      cases hs : truthyInt s with
      | false => rfl
      | true =>
        cases hf : truthyInt f with
        | false => rfl
        | true => exact absurd ⟨hs, hf⟩ h
    simp [priceDeviation, hb]

/-- Witness for C7's amended statement on concrete truthy inputs. -/
theorem c7_deviation_requires_truthy_values_witness :
    truthyInt (some 50) = true ∧ truthyInt (some 40) = true ∧
    priceDeviation (some 50) (some 40) = (some 10, some 25) := by
  refine ⟨rfl, rfl, ?_⟩
  have h := (c7_deviation_requires_truthy_values (some 50) (some 40)).1 rfl rfl
  rw [h]
  with_unfolding_all decide

/-- C10: a numeric range filter supplied as 0 is treated exactly like an
absent filter — the search result set is identical to the one for the request
with that filter omitted, for every table and request, for each of the eight
numeric filters. -/
theorem c10_zero_numeric_filter_is_absent (table : List DBProperty)
    (req : SearchRequest) :
    searchProperties table { req with min_price := some 0 }
        = searchProperties table { req with min_price := none } ∧
    searchProperties table { req with max_price := some 0 }
        = searchProperties table { req with max_price := none } ∧
    searchProperties table { req with min_bedrooms := some 0 }
        = searchProperties table { req with min_bedrooms := none } ∧
    searchProperties table { req with max_bedrooms := some 0 }
        = searchProperties table { req with max_bedrooms := none } ∧
    searchProperties table { req with min_bathrooms := some 0 }
        = searchProperties table { req with min_bathrooms := none } ∧
    searchProperties table { req with max_bathrooms := some 0 }
        = searchProperties table { req with max_bathrooms := none } ∧
    searchProperties table { req with min_sqft := some 0 }
        = searchProperties table { req with min_sqft := none } ∧
    searchProperties table { req with max_sqft := some 0 }
        = searchProperties table { req with max_sqft := none } :=
  ⟨rfl, rfl, rfl, rfl, rfl, rfl, rfl, rfl⟩

/-- Zipping with a target column and keeping the pairs whose target is
present yields as many rows as there are present targets. -/
theorem length_keepTargetRows {α β : Type} :
    ∀ (xs : List α) (ys : List (Option β)), xs.length = ys.length →
      (keepTargetRows xs ys).length = (ys.filter fun o => o.isSome).length := by
  intro xs
  induction xs with
  | nil =>
    intro ys h
    have hy : ys = [] := List.length_eq_zero.mp h.symm
    subst hy
    rfl
  | cons x xs ih =>
    intro ys h
    cases ys with
    | nil => simp at h
    | cons y ys =>
      have h2 : xs.length = ys.length := by simpa using h
      cases y with
      | none =>
        simpa [keepTargetRows, List.filterMap_cons, List.filter_cons]
          using ih ys h2
      | some b =>
        simpa [keepTargetRows, List.filterMap_cons, List.filter_cons]
          using ih ys h2

/-- Feature preparation keeps exactly the rows whose sale price is present:
filling never drops a row, the target mask drops the rest. -/
theorem prepareFeatures_length (currentYear : ℚ) (data : List MergedRow) :
    (prepareFeatures currentYear data).1.length = usableCount data := by
  simp only [prepareFeatures, usableCount]
  rw [List.length_map]
  rw [length_keepTargetRows _ _ (by simp [fillFeatCols])]
  rw [List.filter_map, List.length_map]
  rfl

/-- C3: training on an input with fewer than 50 usable rows (rows whose sale
price is present after the fill step) fails with the insufficient-data error
carrying that row count and fits no model; on exactly 50 usable rows,
training succeeds and a model is fitted. -/
theorem c3_fifty_row_minimum (currentYear : ℚ) (splitFn : SplitFn)
    (oracle : Oracle) (p : PredictorState) (data : List MergedRow) :
    (usableCount data < 50 →
      trainModel currentYear splitFn oracle p data
        = .error (.insufficientData (usableCount data))) ∧
    (usableCount data = 50 →
      trainedModelSome (trainModel currentYear splitFn oracle p data)
        = true) := by
  have hlen := prepareFeatures_length currentYear data
  constructor
  · intro h
    simp only [trainModel]
    rw [if_pos (by rw [hlen]; exact h), hlen]
  · intro h
    simp only [trainModel]
    rw [if_neg (by rw [hlen, h]; omega)]
    rfl

/-- Witness for C3: 10 usable rows fail with the insufficient-data error,
50 usable rows train a model. -/
theorem c3_fifty_row_minimum_witness :
    usableCount trainDataSmall < 50 ∧
    trainModel 2025 sampleSplit sampleOracle
        (initPredictor ModelType.random_forest) trainDataSmall
      = .error (.insufficientData (usableCount trainDataSmall)) ∧
    usableCount trainDataSample = 50 ∧
    trainedModelSome (trainModel 2025 sampleSplit sampleOracle
        (initPredictor ModelType.linear) trainDataSample) = true := by
  refine ⟨by decide, ?_, by decide, ?_⟩
  · exact (c3_fifty_row_minimum 2025 sampleSplit sampleOracle
      (initPredictor ModelType.random_forest) trainDataSmall).1 (by decide)
  · exact (c3_fifty_row_minimum 2025 sampleSplit sampleOracle
      (initPredictor ModelType.linear) trainDataSample).2 (by decide)

/-- C4: in any training run that passes the row minimum, the scaler is fitted
on the 80% train subset only and applied to both subsets; the linear
estimator is fitted on and evaluated from scaled features while the tree
estimators are fitted on and evaluated from unscaled features; and at
prediction time the trained state computes the scaling transform on every
input but hands the estimator scaled features only on the linear path. -/
theorem c4_scaling_dataflow (currentYear : ℚ) (splitFn : SplitFn)
    (oracle : Oracle) (p : PredictorState) (data : List MergedRow)
    (h : 50 ≤ (prepareFeatures currentYear data).1.length) :
    ((trainModel currentYear splitFn oracle p data).toOption.map
        fun r => r.2.scalerFitInput)
      = some (trainSplit currentYear splitFn data).1 ∧
    ((trainModel currentYear splitFn oracle p data).toOption.map
        fun r => r.2.scalerApplied)
      = some [(trainSplit currentYear splitFn data).1,
              (trainSplit currentYear splitFn data).2.1] ∧
    ((trainModel currentYear splitFn oracle p data).toOption.map
        fun r => r.1.scaler)
      = some (some (trainSplit currentYear splitFn data).1) ∧
    (p.model_type = ModelType.linear →
      ((trainModel currentYear splitFn oracle p data).toOption.map
          fun r => r.2.modelFitInput)
        = some (Features.scaled (trainSplit currentYear splitFn data).1
            (trainSplit currentYear splitFn data).1) ∧
      ((trainModel currentYear splitFn oracle p data).toOption.map
          fun r => r.2.modelEvalInput)
        = some (Features.scaled (trainSplit currentYear splitFn data).1
            (trainSplit currentYear splitFn data).2.1)) ∧
    (p.model_type ≠ ModelType.linear →
      ((trainModel currentYear splitFn oracle p data).toOption.map
          fun r => r.2.modelFitInput)
        = some (Features.raw (trainSplit currentYear splitFn data).1) ∧
      ((trainModel currentYear splitFn oracle p data).toOption.map
          fun r => r.2.modelEvalInput)
        = some (Features.raw (trainSplit currentYear splitFn data).2.1)) ∧
    (∀ (oracle2 : Oracle) (x : List FeatVec),
      ((trainModel currentYear splitFn oracle p data).toOption.map
          fun r => (predictBatch oracle2 r.1 x).toOption.map fun q => q.2)
        = some (some
            { scalerTransformInput := fillFeatCols x
              modelPredictInput :=
                if p.model_type = ModelType.linear then
                  Features.scaled (trainSplit currentYear splitFn data).1
                    (fillFeatCols x)
                else Features.raw (fillFeatCols x) })) := by
  have hne : ¬ (prepareFeatures currentYear data).1.length < 50 := by omega
  refine ⟨?_, ?_, ?_, fun hl => ⟨?_, ?_⟩, fun hl => ⟨?_, ?_⟩,
    fun oracle2 x => ?_⟩
  · simp only [trainModel, trainSplit, if_neg hne]
    rfl
  · simp only [trainModel, trainSplit, if_neg hne]
    rfl
  · simp only [trainModel, trainSplit, if_neg hne]
    rfl
  · simp only [trainModel, trainSplit, if_neg hne, hl, if_pos]
    rfl
  · simp only [trainModel, trainSplit, if_neg hne, hl, if_pos]
    rfl
  · simp only [trainModel, trainSplit, if_neg hne, if_neg hl]
    rfl
  · simp only [trainModel, trainSplit, if_neg hne, if_neg hl]
    rfl
  · simp only [trainModel, trainSplit, if_neg hne]
    rfl

/-- Witness for C4 at a concrete 50-row linear training run. -/
theorem c4_scaling_dataflow_witness :
    50 ≤ (prepareFeatures 2025 trainDataSample).1.length ∧
    ((trainModel 2025 sampleSplit sampleOracle
        (initPredictor ModelType.linear) trainDataSample).toOption.map
        fun r => r.2.scalerFitInput)
      = some (trainSplit 2025 sampleSplit trainDataSample).1 := by
  have h : 50 ≤ (prepareFeatures 2025 trainDataSample).1.length := by
    rw [prepareFeatures_length]
    decide
  exact ⟨h, (c4_scaling_dataflow 2025 sampleSplit sampleOracle
    (initPredictor ModelType.linear) trainDataSample h).1⟩

/-- C1: every merged output row has present sale price, bedroom and bathroom
counts and a sale price inside the IQR fences computed from the current
batch's prices after the non-null drop; among the rows surviving the
non-null drop, exactly those with price strictly outside the fences are
excluded. -/
theorem c1_nonnull_and_iqr_fences (b : List BoulderRow)
    (rc : List RentcastRecord) :
    (∀ r ∈ processedProperties b rc,
      r.sale_price.isSome = true ∧ r.bedrooms.isSome = true ∧
      r.bathrooms.isSome = true ∧
      ∀ q : ℚ, r.sale_price = some q →
        lowerFence (pricesOf (dropIncomplete (combinedRows b rc))) ≤ q ∧
        q ≤ upperFence (pricesOf (dropIncomplete (combinedRows b rc)))) ∧
    (∀ r ∈ dropIncomplete (combinedRows b rc), ∀ q : ℚ,
      r.sale_price = some q →
      (q < lowerFence (pricesOf (dropIncomplete (combinedRows b rc))) ∨
       upperFence (pricesOf (dropIncomplete (combinedRows b rc))) < q) →
      r ∉ processedProperties b rc) ∧
    (∀ r ∈ dropIncomplete (combinedRows b rc), ∀ q : ℚ,
      r.sale_price = some q →
      lowerFence (pricesOf (dropIncomplete (combinedRows b rc))) ≤ q →
      q ≤ upperFence (pricesOf (dropIncomplete (combinedRows b rc))) →
      r ∈ processedProperties b rc) := by
  refine ⟨?_, ?_, ?_⟩
  · intro r hr
    have hm := List.mem_filter.mp hr
    have hn := List.mem_filter.mp hm.1
    have hflags := hn.2
    simp only [Bool.and_eq_true] at hflags
    refine ⟨hflags.1.1, hflags.1.2, hflags.2, ?_⟩
    intro q hq
    have hp := hm.2
    simp only [insideFences, hq, Bool.and_eq_true, decide_eq_true_eq] at hp
    exact hp
  · intro r hr q hq hout hmem
    have hm := List.mem_filter.mp hmem
    have hp := hm.2
    simp only [insideFences, hq, Bool.and_eq_true, decide_eq_true_eq] at hp
    rcases hout with hlt | hgt
    · exact absurd hp.1 (not_le.mpr hlt)
    · exact absurd hp.2 (not_le.mpr hgt)
  · intro r hr q hq hlo hhi
    refine List.mem_filter.mpr ⟨hr, ?_⟩
    simp only [insideFences, hq, Bool.and_eq_true, decide_eq_true_eq]
    exact ⟨hlo, hhi⟩

set_option maxRecDepth 100000 in
/-- Witness for C1 on a five-row batch with one extreme price: the ordinary
row is retained with its price inside the fences, the outlier survives the
non-null drop but is excluded by the fences. -/
theorem c1_nonnull_and_iqr_fences_witness :
    boulderToMerged sampleBoulder ∈ processedProperties sampleBatch [] ∧
    (boulderToMerged sampleBoulder).sale_price.isSome = true ∧
    lowerFence (pricesOf (dropIncomplete (combinedRows sampleBatch []))) ≤ 100 ∧
    (100 : ℚ) ≤ upperFence (pricesOf (dropIncomplete (combinedRows sampleBatch []))) ∧
    boulderToMerged sampleOutlier ∈ dropIncomplete (combinedRows sampleBatch []) ∧
    upperFence (pricesOf (dropIncomplete (combinedRows sampleBatch []))) < 2000 ∧
    boulderToMerged sampleOutlier ∉ processedProperties sampleBatch [] := by
  have h := c1_nonnull_and_iqr_fences sampleBatch []
  have hin : boulderToMerged sampleBoulder ∈ processedProperties sampleBatch [] := by
    with_unfolding_all decide
  have hout : boulderToMerged sampleOutlier
      ∈ dropIncomplete (combinedRows sampleBatch []) := by
    with_unfolding_all decide
  have hgt : upperFence (pricesOf (dropIncomplete (combinedRows sampleBatch [])))
      < 2000 := by
    with_unfolding_all decide
  have hbounds := (h.1 (boulderToMerged sampleBoulder) hin).2.2.2 100 rfl
  exact ⟨hin, (h.1 (boulderToMerged sampleBoulder) hin).1, hbounds.1, hbounds.2,
    hout, hgt,
    h.2.1 (boulderToMerged sampleOutlier) hout 2000 rfl (Or.inr hgt)⟩

/-- C9: the column rename sends the external last-sale-price field to
`last_sale_price` and never to `sale_price`, so every external record lacks a
sale price, is removed by the non-null drop, and every row of the merger's
output carries the loader's provenance tag — for every pair of inputs. -/
theorem c9_output_is_boulder_only (b : List BoulderRow)
    (rc : List RentcastRecord) :
    (∀ r ∈ rc, (rentcastToMerged r).sale_price = none ∧
      (rentcastToMerged r).last_sale_price = r.lastSalePrice) ∧
    (∀ m ∈ processedProperties b rc, m.data_source = "boulder_county") := by
  constructor
  · intro r _
    exact ⟨rfl, rfl⟩
  · intro m hm
    have hf := List.mem_filter.mp hm
    have hn := List.mem_filter.mp hf.1
    have hflags := hn.2
    simp only [Bool.and_eq_true] at hflags
    have hsome : m.sale_price.isSome = true := hflags.1.1
    have hcomb : m ∈ combinedRows b rc := hn.1
    unfold combinedRows at hcomb
    have hcases : m ∈ b.map boulderToMerged ∨ m ∈ rc.map rentcastToMerged := by
      by_cases h : rc.isEmpty
      · rw [if_pos h] at hcomb
        exact Or.inl hcomb
      · rw [if_neg h] at hcomb
        exact List.mem_append.mp hcomb
    rcases hcases with hb | hr
    · rcases List.mem_map.mp hb with ⟨x, _, hx⟩
      rw [← hx]
      rfl
    · rcases List.mem_map.mp hr with ⟨x, _, hx⟩
      rw [← hx] at hsome
      simp [rentcastToMerged] at hsome

set_option maxRecDepth 100000 in
/-- Witness for C9: with a nonempty external input, its record maps to a row
with no sale price, and a surviving merged row is tagged `boulder_county`. -/
theorem c9_output_is_boulder_only_witness :
    (rentcastToMerged sampleRentcast).sale_price = none ∧
    (rentcastToMerged sampleRentcast).last_sale_price
      = sampleRentcast.lastSalePrice ∧
    boulderToMerged sampleBoulder
      ∈ processedProperties sampleBatch [sampleRentcast] ∧
    (boulderToMerged sampleBoulder).data_source = "boulder_county" := by
  have h := c9_output_is_boulder_only sampleBatch [sampleRentcast]
  have hr := h.1 sampleRentcast (by simp)
  have hin : boulderToMerged sampleBoulder
      ∈ processedProperties sampleBatch [sampleRentcast] := by
    with_unfolding_all decide
  exact ⟨hr.1, hr.2, hin, h.2 (boulderToMerged sampleBoulder) hin⟩

/-- Membership in one `unique` step. -/
theorem mem_addZip (z : String) (acc : List String) (r : MergedRow) :
    z ∈ addZip acc r ↔ z ∈ acc ∨ r.zip_code = some z := by
  unfold addZip
  cases hz : r.zip_code with
  | none => simp
  | some w =>
    show z ∈ (if w ∈ acc then acc else acc ++ [w]) ↔ z ∈ acc ∨ some w = some z
    by_cases hw : w ∈ acc
    · rw [if_pos hw]
      constructor
      · exact Or.inl
      · rintro (h | h)
        · exact h
        · injection h with h2
          rw [← h2]
          exact hw
    · rw [if_neg hw]
      simp [List.mem_append, eq_comm]

/-- Membership under the `unique` fold. -/
theorem mem_foldl_addZip (z : String) :
    ∀ (rows : List MergedRow) (acc : List String),
      z ∈ rows.foldl addZip acc ↔
        z ∈ acc ∨ ∃ r, r ∈ rows ∧ r.zip_code = some z := by
  intro rows
  induction rows with
  | nil => intro acc; simp
  | cons r rs ih =>
    intro acc
    rw [List.foldl_cons, ih, mem_addZip]
    constructor
    · rintro ((h | h) | ⟨r2, hr2, hz2⟩)
      · exact Or.inl h
      · exact Or.inr ⟨r, List.mem_cons_self r rs, h⟩
      · exact Or.inr ⟨r2, List.mem_cons_of_mem r hr2, hz2⟩
    · rintro (h | ⟨r2, hr2, hz2⟩)
      · exact Or.inl (Or.inl h)
      · rcases List.mem_cons.mp hr2 with h2 | h2
        · subst h2
          exact Or.inl (Or.inr hz2)
        · exact Or.inr ⟨r2, h2, hz2⟩

/-- A zip code is listed by `unique` iff some row carries it. -/
theorem mem_uniqueZips (z : String) (rows : List MergedRow) :
    z ∈ uniqueZips rows ↔ ∃ r, r ∈ rows ∧ r.zip_code = some z := by
  unfold uniqueZips
  rw [mem_foldl_addZip]
  simp

/-- One `unique` step preserves distinctness. -/
theorem nodup_addZip (acc : List String) (r : MergedRow) (h : acc.Nodup) :
    (addZip acc r).Nodup := by
  unfold addZip
  cases r.zip_code with
  | none => exact h
  | some w =>
    show (if w ∈ acc then acc else acc ++ [w]).Nodup
    by_cases hw : w ∈ acc
    · rw [if_pos hw]
      exact h
    · rw [if_neg hw]
      simp [List.nodup_append, h, hw]

/-- The `unique` fold preserves distinctness. -/
theorem nodup_foldl_addZip :
    ∀ (rows : List MergedRow) (acc : List String), acc.Nodup →
      (rows.foldl addZip acc).Nodup := by
  intro rows
  induction rows with
  | nil => intro acc h; exact h
  | cons r rs ih =>
    intro acc h
    rw [List.foldl_cons]
    exact ih _ (nodup_addZip acc r h)

/-- `unique` lists each zip code once. -/
theorem nodup_uniqueZips (rows : List MergedRow) : (uniqueZips rows).Nodup :=
  nodup_foldl_addZip rows [] List.nodup_nil

/-- When every sale price of a group is present, the group contributes as
many prices as rows. -/
theorem pricesOf_length_of_all_some :
    ∀ (g : List MergedRow), (∀ r ∈ g, r.sale_price.isSome = true) →
      (pricesOf g).length = g.length := by
  intro g
  induction g with
  | nil => intro _; rfl
  | cons r rs ih =>
    intro h
    have hr := h r (List.mem_cons_self r rs)
    rcases Option.isSome_iff_exists.mp hr with ⟨q, hq⟩
    simp only [pricesOf, List.filterMap_cons, hq]
    simpa [pricesOf] using ih fun r2 h2 => h r2 (List.mem_cons_of_mem r h2)

/-- A qualifying group (5 rows or more, prices present) yields exactly the
expected record without raising. -/
theorem trendRecord_of_qualifying (today : String) (rows : List MergedRow)
    (z : String) (hall : ∀ r ∈ rows, r.sale_price.isSome = true)
    (h5 : 5 ≤ (groupOf rows z).length) :
    trendRecord today (groupOf rows z) z
      = .ok (expectedRecord today rows z) := by
  have hsub : ∀ r ∈ groupOf rows z, r.sale_price.isSome = true :=
    fun r hr => hall r (List.mem_filter.mp hr).1
  have hlen := pricesOf_length_of_all_some (groupOf rows z) hsub
  have hne : ¬ (pricesOf (groupOf rows z)).isEmpty = true := by
    intro h0
    have : pricesOf (groupOf rows z) = [] := by
      cases hp : pricesOf (groupOf rows z) with
      | nil => rfl
      | cons a l => rw [hp] at h0; exact absurd h0 (by simp)
    rw [this] at hlen
    simp at hlen
    omega
  unfold trendRecord
  rw [if_neg hne]
  rfl

/-- The trend loop over zip codes whose groups all succeed returns exactly
the expected records in order. -/
theorem collectTrends_ok (today : String) (rows : List MergedRow) :
    ∀ zs : List String,
      (∀ z ∈ zs, trendRecord today (groupOf rows z) z
        = .ok (expectedRecord today rows z)) →
      collectTrends today rows zs
        = .ok (zs.map (expectedRecord today rows)) := by
  intro zs
  induction zs with
  | nil => intro _; rfl
  | cons z zs ih =>
    intro h
    have hz := h z (List.mem_cons_self z zs)
    have hzs := ih fun w hw => h w (List.mem_cons_of_mem z hw)
    simp only [collectTrends, hz, hzs, List.map_cons]

/-- C2: under the merger's invariant (all sale prices present), the trend
stage succeeds and emits exactly the per-zip records of the qualifying
groups: no record for a group below 5 rows; exactly one record per group of
5 or more, whose mean and median sale price are the integer-truncated group
mean/median, whose price-per-area is the ratio of sums, and whose inventory
and sales counts both equal the group size. -/
theorem c2_trend_aggregation (today : String) (rows : List MergedRow)
    (hall : ∀ r ∈ rows, r.sale_price.isSome = true) :
    marketTrendsStage today rows
      = .ok ((qualifyingZips rows).map (expectedRecord today rows)) ∧
    (∀ z : String, (groupOf rows z).length < 5 →
      ∀ t ∈ (qualifyingZips rows).map (expectedRecord today rows),
        t.zip_code ≠ z) ∧
    (∀ z : String, 5 ≤ (groupOf rows z).length →
      (((qualifyingZips rows).map (expectedRecord today rows)).filter
          (fun t => t.zip_code == z)).length = 1 ∧
      (∀ t ∈ (qualifyingZips rows).map (expectedRecord today rows),
        t.zip_code = z → t = expectedRecord today rows z) ∧
      (expectedRecord today rows z).avg_price
        = ratTrunc (listMean (pricesOf (groupOf rows z))) ∧
      (expectedRecord today rows z).median_price
        = ratTrunc (listMedian (pricesOf (groupOf rows z))) ∧
      (expectedRecord today rows z).price_per_sqft
        = listSum (pricesOf (groupOf rows z))
          / listSum ((groupOf rows z).filterMap (fun r => r.square_footage)) ∧
      (expectedRecord today rows z).inventory_count
        = (groupOf rows z).length ∧
      (expectedRecord today rows z).sales_count
        = (groupOf rows z).length) := by
  have hok : ∀ z ∈ qualifyingZips rows,
      trendRecord today (groupOf rows z) z
        = .ok (expectedRecord today rows z) := by
    intro z hz
    have h5 : 5 ≤ (groupOf rows z).length := by
      have h2 := (List.mem_filter.mp hz).2
      simpa using h2
    exact trendRecord_of_qualifying today rows z hall h5
  have hbody : marketTrendsBody today rows
      = .ok ((qualifyingZips rows).map (expectedRecord today rows)) := by
    by_cases hemp : rows.isEmpty
    · have hnil : rows = [] := by
        cases rows with
        | nil => rfl
        | cons r rs => simp at hemp
      subst hnil
      rfl
    · unfold marketTrendsBody
      rw [if_neg hemp]
      exact collectTrends_ok today rows _ hok
  refine ⟨?_, ?_, ?_⟩
  · unfold marketTrendsStage
    rw [hbody]
  · intro z hlt t ht heq
    rcases List.mem_map.mp ht with ⟨w, hw, hwt⟩
    have h5 : 5 ≤ (groupOf rows w).length := by
      have h2 := (List.mem_filter.mp hw).2
      simpa using h2
    have hwz : w = z := by
      rw [← hwt] at heq
      simpa [expectedRecord] using heq
    rw [hwz] at h5
    omega
  · intro z h5
    have hzq : z ∈ qualifyingZips rows := by
      have hpos : 0 < (groupOf rows z).length := by omega
      rcases List.exists_mem_of_length_pos hpos with ⟨r, hr⟩
      have hrm := List.mem_filter.mp hr
      have hzc : r.zip_code = some z := by
        have h2 := hrm.2
        simpa using h2
      exact List.mem_filter.mpr
        ⟨(mem_uniqueZips z rows).mpr ⟨r, hrm.1, hzc⟩, by simpa using h5⟩
    refine ⟨?_, ?_, rfl, rfl, rfl, rfl, rfl⟩
    · rw [List.filter_map, List.length_map]
      have hpred : ((fun t : TrendRecord => t.zip_code == z)
          ∘ expectedRecord today rows) = fun w => w == z := rfl
      rw [hpred]
      have hnd : (qualifyingZips rows).Nodup :=
        (nodup_uniqueZips rows).filter _
      rw [← List.countP_eq_length_filter]
      exact List.count_eq_one_of_mem hnd hzq
    · intro t ht heq
      rcases List.mem_map.mp ht with ⟨w, hw, hwt⟩
      have hwz : w = z := by
        rw [← hwt] at heq
        simpa [expectedRecord] using heq
      rw [← hwt, hwz]

/-- Witness for C2 on a 7-row batch: five rows in zip 80301 (one record,
counted once) and two rows in zip 80302 (no record). -/
theorem c2_trend_aggregation_witness :
    (∀ r ∈ trendRowsSample, r.sale_price.isSome = true) ∧
    marketTrendsStage "2024-06-01" trendRowsSample
      = .ok ((qualifyingZips trendRowsSample).map
          (expectedRecord "2024-06-01" trendRowsSample)) ∧
    (groupOf trendRowsSample "80302").length < 5 ∧
    (∀ t ∈ (qualifyingZips trendRowsSample).map
        (expectedRecord "2024-06-01" trendRowsSample),
      t.zip_code ≠ "80302") ∧
    5 ≤ (groupOf trendRowsSample "80301").length ∧
    (((qualifyingZips trendRowsSample).map
        (expectedRecord "2024-06-01" trendRowsSample)).filter
        (fun t => t.zip_code == "80301")).length = 1 := by
  have hall : ∀ r ∈ trendRowsSample, r.sale_price.isSome = true := by decide
  have h := c2_trend_aggregation "2024-06-01" trendRowsSample hall
  exact ⟨hall, h.1, by decide, h.2.1 "80302" (by decide), by decide,
    (h.2.2 "80301" (by decide)).1⟩

end RealEstate
